import Mathlib

/-!
Shallow embedding of the ForexBot trading core (risk governor, backtester,
walk-forward window generation) and proofs about it.

Sources embedded:
  * src/src/risk_management/risk_manager.py  (class RiskManager)
  * src/src/backtesting/backtester.py        (class Backtester)
  * config/config.py                         (constants)

Modelling conventions:
  * Python floats are modelled as exact rationals (ℚ).
  * Methods that mutate `self` become functions `State → ... → State`
    (or `State → ... → State × result`).
  * Bar timestamps (`bar.name`) are modelled by the bar's integer index in
    the series, which is order-isomorphic to the strictly increasing
    timestamp index of the dataframe.
  * Python's `x or default` on floats (which falls back on 0.0 as well as
    None) is modelled by `pyOrQ`.
  * `sharpe_ratio` of `_calculate_metrics` involves floating-point square
    roots (an irrational, genuinely floating-point quantity); it is omitted
    from the `Metrics` record.  No claim refers to it.
-/

namespace ForexBot

namespace config

def MAX_RISK_PER_TRADE : ℚ := 0.01
def MAX_DRAWDOWN : ℚ := 0.12
def MAX_DAILY_LOSS : ℚ := 0.03
def MAX_CONCURRENT_TRADES : ℕ := 3
def MAX_DAILY_TRADES : ℕ := 10
def MAX_TOTAL_PORTFOLIO_RISK : ℚ := 0.05
def MAX_CONSECUTIVE_LOSSES : ℕ := 5
def EURCAD_PIP_VALUE : ℚ := 0.0001
def INITIAL_CAPITAL : ℚ := 1000
def BACKTEST_COMMISSION_PIPS : ℚ := 0.6
def BACKTEST_TRAIN_PERIOD_MONTHS : ℕ := 6
def BACKTEST_TEST_PERIOD_MONTHS : ℕ := 1

end config

/-- Python's `x or d` for an optional float argument: `None` and `0.0`
both fall back to the default `d`. -/
def pyOrQ (x : Option ℚ) (d : ℚ) : ℚ :=
  match x with
  | none => d
  | some v => if v = 0 then d else v

/-- An entry of `RiskManager.open_positions`.  The code only ever reads the
keys `id` (in `close_position`) and `risk_amount` (in the portfolio-risk
check), so those are the modelled fields. -/
structure OpenPos where
  id : ℕ
  risk_amount : ℚ
  deriving DecidableEq

/-- State of `RiskManager` (risk_manager.py).  `logger` is omitted
(logging only). -/
structure RiskManager where
  initial_capital : ℚ
  current_capital : ℚ
  max_risk_per_trade : ℚ
  max_drawdown : ℚ
  max_daily_loss : ℚ
  max_concurrent_trades : ℕ
  open_positions : List OpenPos
  daily_pnl : ℚ
  peak_capital : ℚ
  current_drawdown : ℚ
  consecutive_losses : ℕ
  daily_trade_count : ℕ
  trading_halted : Bool
  halt_reason : Option String
  deriving DecidableEq

/-- `RiskManager.__init__` -/
def RiskManager.init (initial_capital : ℚ) (max_risk_per_trade : Option ℚ) :
    RiskManager where
  initial_capital := initial_capital
  current_capital := initial_capital
  max_risk_per_trade := pyOrQ max_risk_per_trade config.MAX_RISK_PER_TRADE
  max_drawdown := config.MAX_DRAWDOWN
  max_daily_loss := config.MAX_DAILY_LOSS
  max_concurrent_trades := config.MAX_CONCURRENT_TRADES
  open_positions := []
  daily_pnl := 0
  peak_capital := initial_capital
  current_drawdown := 0
  consecutive_losses := 0
  daily_trade_count := 0
  trading_halted := false
  halt_reason := none

/-- `RiskManager.halt_trading` (alert/logging side effects omitted). -/
def RiskManager.halt_trading (rm : RiskManager) (reason : String) : RiskManager :=
  { rm with trading_halted := true, halt_reason := some reason }

/-- Rendering of a Python `Optional[str]` inside an f-string. -/
def strOfOpt (o : Option String) : String :=
  match o with
  | some s => s
  | none => "None"

/-- `RiskManager.can_open_position`.  Returns the updated state together
with the `(can_open, reason)` pair.  The `strategy_name` argument is unused
by the source as well. -/
def RiskManager.can_open_position (rm : RiskManager) (risk_amount : ℚ)
    (strategy_name : String) : RiskManager × Bool × String :=
  if rm.trading_halted then
    (rm, false, "Trading halted: " ++ strOfOpt rm.halt_reason)
  else if rm.current_capital * rm.max_risk_per_trade < risk_amount then
    (rm, false, "Exceeds per-trade risk limit")
  else if rm.daily_pnl < -(rm.current_capital * rm.max_daily_loss) then
    (rm.halt_trading "Daily loss limit reached", false, "Daily loss limit reached")
  else
    -- `self.current_drawdown = (peak - current) / peak` is an assignment:
    -- every call that reaches this point recomputes the field.
    let rm1 := { rm with current_drawdown :=
                  (rm.peak_capital - rm.current_capital) / rm.peak_capital }
    if rm1.max_drawdown ≤ rm1.current_drawdown then
      (rm1.halt_trading "Maximum drawdown reached", false, "Maximum drawdown reached")
    else if rm1.max_concurrent_trades ≤ rm1.open_positions.length then
      (rm1, false, "Maximum concurrent trades reached")
    else if config.MAX_CONSECUTIVE_LOSSES ≤ rm1.consecutive_losses then
      (rm1.halt_trading "5 consecutive losses - cooldown period", false,
        "Too many consecutive losses")
    else
      let total_risk := (rm1.open_positions.map OpenPos.risk_amount).sum
      if rm1.current_capital * config.MAX_TOTAL_PORTFOLIO_RISK
          < total_risk + risk_amount then
        (rm1, false, "Total portfolio risk exceeds limit")
      else if config.MAX_DAILY_TRADES ≤ rm1.daily_trade_count then
        (rm1, false, "Daily trade limit reached")
      else
        (rm1, true, "Position allowed")

/-- `RiskManager.calculate_position_size` -/
def RiskManager.calculate_position_size (rm : RiskManager)
    (entry_price stop_loss_price risk_percentage : ℚ) : ℚ :=
  let risk_amount := rm.current_capital * risk_percentage
  let price_risk_pips := |entry_price - stop_loss_price| / config.EURCAD_PIP_VALUE
  if price_risk_pips = 0 then 0
  else
    let pip_value : ℚ := 10
    let position_risk_per_pip := risk_amount / price_risk_pips
    let lots := position_risk_per_pip / pip_value
    let max_notional := rm.current_capital * 0.10
    let max_lots := max_notional / (entry_price * 100000)
    min lots max_lots

/-- `RiskManager.add_position` -/
def RiskManager.add_position (rm : RiskManager) (position : OpenPos) : RiskManager :=
  { rm with open_positions := rm.open_positions ++ [position],
            daily_trade_count := rm.daily_trade_count + 1 }

/-- `RiskManager.close_position` -/
def RiskManager.close_position (rm : RiskManager) (position_id : ℕ) (pnl : ℚ) :
    RiskManager :=
  let rm1 := { rm with open_positions :=
                rm.open_positions.filter (fun p => p.id != position_id) }
  let rm2 := { rm1 with current_capital := rm1.current_capital + pnl,
                        daily_pnl := rm1.daily_pnl + pnl }
  let rm3 := if rm2.peak_capital < rm2.current_capital then
               { rm2 with peak_capital := rm2.current_capital }
             else rm2
  if pnl < 0 then
    { rm3 with consecutive_losses := rm3.consecutive_losses + 1 }
  else
    { rm3 with consecutive_losses := 0 }

/-- `RiskManager.resume_trading` -/
def RiskManager.resume_trading (rm : RiskManager) : RiskManager :=
  { rm with trading_halted := false, halt_reason := none, consecutive_losses := 0 }

/-- `RiskManager.reset_daily_metrics` -/
def RiskManager.reset_daily_metrics (rm : RiskManager) : RiskManager :=
  { rm with daily_pnl := 0, daily_trade_count := 0 }

/-- The state-mutating operations of the risk governor, for trace
invariants. -/
inductive RMOp where
  | canOpen (risk_amount : ℚ) (strategy_name : String)
  | addPos (position : OpenPos)
  | closePos (position_id : ℕ) (pnl : ℚ)
  | haltOp (reason : String)
  | resumeOp
  | resetDaily
  deriving DecidableEq

def RiskManager.applyOp (rm : RiskManager) : RMOp → RiskManager
  | .canOpen r s => (rm.can_open_position r s).1
  | .addPos p => rm.add_position p
  | .closePos id pnl => rm.close_position id pnl
  | .haltOp r => rm.halt_trading r
  | .resumeOp => rm.resume_trading
  | .resetDaily => rm.reset_daily_metrics

def RiskManager.runOps (rm : RiskManager) (ops : List RMOp) : RiskManager :=
  ops.foldl RiskManager.applyOp rm

/-- Sum of all pnl values passed to `close_position` in a trace. -/
def closedPnlSum : List RMOp → ℚ
  | [] => 0
  | RMOp.closePos _ pnl :: rest => pnl + closedPnlSum rest
  | _ :: rest => closedPnlSum rest

/-- One OHLCV bar, restricted to the fields the backtester reads
(`low`, `high`, `close`).  The timestamp is the bar's index. -/
structure Bar where
  low : ℚ
  high : ℚ
  close : ℚ
  deriving DecidableEq

inductive Direction where
  | long
  | short
  deriving DecidableEq

/-- The dict returned by `strategy.calculate_entry_exit`. -/
structure EntryData where
  entry : ℚ
  stop_loss : ℚ
  take_profit_1 : ℚ
  take_profit_2 : Option ℚ
  deriving DecidableEq

/-- A pluggable strategy, abstracted over: signal columns produced by
`generate_signals` and the `calculate_entry_exit` callback are modelled as
functions of the bar index (the source passes the dataframe prefix up to
that index, which is determined by the index once the series is fixed). -/
structure Strategy where
  longSignal : ℕ → Bool
  shortSignal : ℕ → Bool
  calculate_entry_exit : ℕ → Direction → Option EntryData

/-- The position dict built by `Backtester._open_position`.
`pClosed` models the source key `partial_closed` (never read back). -/
structure Position where
  type : Direction
  entry_price : ℚ
  entry_time : ℕ
  entry_index : ℕ
  stop_loss : ℚ
  take_profit_1 : ℚ
  take_profit_2 : Option ℚ
  size : ℚ
  pClosed : Bool
  deriving DecidableEq

/-- Exit reasons.  The code produces only the first three; `end_of_data`
is the reason named by the specification for force-closing at series end
and is included so that statements about it can be made. -/
inductive ExitReason where
  | stop_loss
  | take_profit
  | time_exit
  | end_of_data
  deriving DecidableEq

/-- The dict returned by `Backtester._check_exit` on a close. -/
structure CloseResult where
  price : ℚ
  time : ℕ
  reason : ExitReason
  deriving DecidableEq

/-- One entry of the `trades` list built by `run_backtest`. -/
structure Trade where
  entry_time : ℕ
  exit_time : ℕ
  type : Direction
  entry_price : ℚ
  exit_price : ℚ
  pnl : ℚ
  pnl_pct : ℚ
  exit_reason : ExitReason
  deriving DecidableEq

/-- Immutable configuration of `Backtester` (its `__init__` fields). -/
structure Backtester where
  initial_capital : ℚ
  commission_pips : ℚ
  pip_value : ℚ
  deriving DecidableEq

/-- `Backtester.__init__` -/
def Backtester.init (initial_capital commission_pips : Option ℚ) : Backtester where
  initial_capital := pyOrQ initial_capital config.INITIAL_CAPITAL
  commission_pips := pyOrQ commission_pips config.BACKTEST_COMMISSION_PIPS
  pip_value := config.EURCAD_PIP_VALUE

/-- `Backtester._open_position` (does not read `self`). -/
def open_position (position_type : Direction) (bar_index : ℕ)
    (entry_data : EntryData) (capital : ℚ) : Position :=
  let risk_per_trade := capital * 0.01
  let stop_distance := |entry_data.entry - entry_data.stop_loss|
  let position_size :=
    if stop_distance = 0 then 0
    else risk_per_trade / stop_distance * entry_data.entry
  { type := position_type
    entry_price := entry_data.entry
    entry_time := bar_index
    entry_index := bar_index
    stop_loss := entry_data.stop_loss
    take_profit_1 := entry_data.take_profit_1
    take_profit_2 := entry_data.take_profit_2
    size := position_size
    pClosed := false }

/-- `Backtester._check_exit` (does not read `self`). -/
def check_exit (position : Position) (bar : Bar) (index : ℕ) : Option CloseResult :=
  let timeExit : Option CloseResult :=
    if 48 < index - position.entry_index then
      some { price := bar.close, time := index, reason := ExitReason.time_exit }
    else
      none
  match position.type with
  | Direction.long =>
    if bar.low ≤ position.stop_loss then
      some { price := position.stop_loss, time := index, reason := ExitReason.stop_loss }
    else if position.take_profit_1 ≤ bar.high then
      some { price := position.take_profit_1, time := index,
             reason := ExitReason.take_profit }
    else timeExit
  | Direction.short =>
    if position.stop_loss ≤ bar.high then
      some { price := position.stop_loss, time := index, reason := ExitReason.stop_loss }
    else if bar.low ≤ position.take_profit_1 then
      some { price := position.take_profit_1, time := index,
             reason := ExitReason.take_profit }
    else timeExit

/-- `Backtester._calculate_pnl` -/
def Backtester.calculate_pnl (bt : Backtester) (position : Position)
    (close_result : CloseResult) : ℚ :=
  let price_change :=
    match position.type with
    | Direction.long => close_result.price - position.entry_price
    | Direction.short => position.entry_price - close_result.price
  (price_change - bt.commission_pips * bt.pip_value) * position.size

/-- `Backtester._calculate_unrealized_pnl` (does not read `self`). -/
def calculate_unrealized_pnl (position : Position) (bar : Bar) : ℚ :=
  match position.type with
  | Direction.long => (bar.close - position.entry_price) * position.size
  | Direction.short => (position.entry_price - bar.close) * position.size

/-- Profit factor: a rational, or the `float('inf')` sentinel. -/
inductive PFValue where
  | num (q : ℚ)
  | inf
  deriving DecidableEq

/-- Mean of a list (pandas `.mean()`, only applied to nonempty lists). -/
def listMean (xs : List ℚ) : ℚ := xs.sum / (xs.length : ℚ)

/-- `np.min` of a nonempty list. -/
def listMin : List ℚ → ℚ
  | [] => 0
  | x :: xs => xs.foldl min x

/-- `np.maximum.accumulate` -/
def runningMaxAux (m : ℚ) : List ℚ → List ℚ
  | [] => []
  | x :: xs => max m x :: runningMaxAux (max m x) xs

def runningMax : List ℚ → List ℚ
  | [] => []
  | x :: xs => x :: runningMaxAux x xs

/-- `(equity - running_max) / running_max`, elementwise. -/
def drawdownList (equity : List ℚ) : List ℚ :=
  (equity.zip (runningMax equity)).map (fun p => (p.1 - p.2) / p.2)

/-- The metrics dict of `Backtester._calculate_metrics`.
(`sharpe_ratio` omitted: floating-point square roots, see header.) -/
structure Metrics where
  total_trades : ℕ
  win_rate : ℚ
  profit_factor : PFValue
  avg_win : ℚ
  avg_loss : ℚ
  avg_rr : ℚ
  max_drawdown : ℚ
  total_return : ℚ
  final_equity : ℚ
  deriving DecidableEq

/-- `Backtester._calculate_metrics` (does not read `self`). -/
def calculate_metrics (trades_list : List Trade) (equity_curve : List ℚ) : Metrics :=
  if trades_list.isEmpty then
    { total_trades := 0
      win_rate := 0
      profit_factor := PFValue.num 0
      avg_win := 0
      avg_loss := 0
      avg_rr := 0
      max_drawdown := 0
      total_return := 0
      final_equity := if equity_curve.isEmpty then 0 else equity_curve.getLastD 0 }
  else
    let winning_trades := trades_list.filter (fun t => 0 < t.pnl)
    let losing_trades := trades_list.filter (fun t => t.pnl < 0)
    let win_rate := (winning_trades.length : ℚ) / (trades_list.length : ℚ)
    let gross_profit :=
      if 0 < winning_trades.length then (winning_trades.map Trade.pnl).sum else 0
    let gross_loss :=
      if 0 < losing_trades.length then |(losing_trades.map Trade.pnl).sum| else 0
    let profit_factor :=
      if 0 < gross_loss then PFValue.num (gross_profit / gross_loss)
      else if 0 < gross_profit then PFValue.inf
      else PFValue.num 0
    let avg_win :=
      if 0 < winning_trades.length then listMean (winning_trades.map Trade.pnl) else 0
    let avg_loss :=
      if 0 < losing_trades.length then listMean (losing_trades.map Trade.pnl) else 0
    let max_drawdown := |listMin (drawdownList equity_curve)|
    let total_return :=
      if 0 < equity_curve.length ∧ 0 < equity_curve.headI then
        (equity_curve.getLastD 0 - equity_curve.headI) / equity_curve.headI
      else 0
    { total_trades := trades_list.length
      win_rate := win_rate
      profit_factor := profit_factor
      avg_win := avg_win
      avg_loss := avg_loss
      avg_rr := if avg_loss ≠ 0 then |avg_win / avg_loss| else 0
      max_drawdown := max_drawdown
      total_return := total_return
      final_equity := if 0 < equity_curve.length then equity_curve.getLastD 0 else 0 }

/-- The mutable locals of the `run_backtest` simulation loop. -/
structure BTState where
  capital : ℚ
  positions : List Position
  trades : List Trade
  equity_curve : List ℚ
  deriving DecidableEq

/-- Entry phase of one loop iteration of `run_backtest` (the
`if long_signal ... elif short_signal ...` block). -/
def btEntry (strat : Strategy) (st : BTState) (i : ℕ) : BTState :=
  if strat.longSignal i && st.positions.isEmpty then
    match strat.calculate_entry_exit i Direction.long with
    | some entry_data =>
      { st with positions :=
          st.positions ++ [open_position Direction.long i entry_data st.capital] }
    | none => st
  else if strat.shortSignal i && st.positions.isEmpty then
    match strat.calculate_entry_exit i Direction.short with
    | some entry_data =>
      { st with positions :=
          st.positions ++ [open_position Direction.short i entry_data st.capital] }
    | none => st
  else st

/-- Body of `for pos in positions:` in the exit phase: accumulates capital
and the trades list. -/
def btExitStep (bt : Backtester) (bar : Bar) (i : ℕ) (acc : ℚ × List Trade)
    (pos : Position) : ℚ × List Trade :=
  match check_exit pos bar i with
  | some close_result =>
    let pnl := bt.calculate_pnl pos close_result
    let capital := acc.1 + pnl
    (capital, acc.2 ++ [{
        entry_time := pos.entry_time
        exit_time := close_result.time
        type := pos.type
        entry_price := pos.entry_price
        exit_price := close_result.price
        pnl := pnl
        pnl_pct := pnl / capital * 100
        exit_reason := close_result.reason }])
  | none => acc

/-- One full iteration of the `run_backtest` simulation loop at bar `i`:
entry check, exit checks, removal of closed positions, equity update. -/
def btBar (bt : Backtester) (strat : Strategy) (st : BTState) (i : ℕ) (bar : Bar) :
    BTState :=
  let st1 := btEntry strat st i
  let acc := st1.positions.foldl (btExitStep bt bar i) (st1.capital, st1.trades)
  let positions := st1.positions.filter (fun p => (check_exit p bar i).isNone)
  let unrealized := (positions.map (fun p => calculate_unrealized_pnl p bar)).sum
  { capital := acc.1
    positions := positions
    trades := acc.2
    equity_curve := st1.equity_curve ++ [acc.1 + unrealized] }

/-- The final state of the `run_backtest` locals after the simulation loop
(`for i in range(100, len(df_test))`). -/
def Backtester.runState (bt : Backtester) (strat : Strategy) (bars : List Bar) :
    BTState :=
  (bars.enum.drop 100).foldl (fun st p => btBar bt strat st p.1 p.2)
    { capital := bt.initial_capital
      positions := []
      trades := []
      equity_curve := [bt.initial_capital] }

/-- The result dict of `run_backtest`. -/
structure BTResult where
  trades : List Trade
  metrics : Metrics
  equity_curve : List ℚ
  final_capital : ℚ
  deriving DecidableEq

/-- `Backtester.run_backtest` on the date-filtered series.  Returns `none`
for the empty dict returned when fewer than 100 bars are available. -/
def Backtester.run_backtest (bt : Backtester) (strat : Strategy) (bars : List Bar) :
    Option BTResult :=
  if bars.length < 100 then none
  else
    let st := bt.runState strat bars
    some { trades := st.trades
           metrics := calculate_metrics st.trades st.equity_curve
           equity_curve := st.equity_curve
           final_capital := st.capital }

/-- A walk-forward test window (its `test_start`/`test_end` dates), in
days from the series origin. -/
structure WFWindow where
  test_start : ℕ
  test_end : ℕ
  deriving DecidableEq

/-- The `while current_date < end_date` loop of `walk_forward_analysis`,
collecting the generated test windows.  Dates are modelled in days.  The
`fuel` argument bounds the recursion; `walk_forward_windows` passes enough
fuel that it is never exhausted when a window length is positive (with
`train_days = test_days = 0` the Python loop itself never terminates). -/
def wfLoop (train_days test_days end_date : ℕ) : ℕ → ℕ → List WFWindow
  | 0, _ => []
  | fuel + 1, current_date =>
    if current_date < end_date then
      let train_end := current_date + train_days
      let test_start := train_end
      let test_end := test_start + test_days
      if end_date < test_end then []
      else
        { test_start := test_start, test_end := test_end } ::
          wfLoop train_days test_days end_date fuel test_end
    else []

/-- The sequence of test windows generated by
`Backtester.walk_forward_analysis` for a series spanning
`[start_date, end_date]` (days). -/
def walk_forward_windows (train_period_months test_period_months : ℕ)
    (start_date end_date : ℕ) : List WFWindow :=
  wfLoop (train_period_months * 30) (test_period_months * 30) end_date
    (end_date + 1) start_date

/-- First-failure-wins combinator over an ordered list of
`(failure condition, rejection reason)` checks. -/
def firstFailing : List (Bool × String) → Bool × String → Bool × String
  | [], dflt => dflt
  | (cond, reason) :: rest, dflt =>
    if cond then (false, reason) else firstFailing rest dflt

/-- The eight approval checks of `can_open_position`, as pure predicates of
the pre-call state, in the order the code evaluates them. -/
def codeChecks (rm : RiskManager) (risk_amount : ℚ) : List (Bool × String) :=
  [ (rm.trading_halted, "Trading halted: " ++ strOfOpt rm.halt_reason),
    (decide (rm.current_capital * rm.max_risk_per_trade < risk_amount),
      "Exceeds per-trade risk limit"),
    (decide (rm.daily_pnl < -(rm.current_capital * rm.max_daily_loss)),
      "Daily loss limit reached"),
    (decide (rm.max_drawdown ≤
        (rm.peak_capital - rm.current_capital) / rm.peak_capital),
      "Maximum drawdown reached"),
    (decide (rm.max_concurrent_trades ≤ rm.open_positions.length),
      "Maximum concurrent trades reached"),
    (decide (config.MAX_CONSECUTIVE_LOSSES ≤ rm.consecutive_losses),
      "Too many consecutive losses"),
    (decide (rm.current_capital * config.MAX_TOTAL_PORTFOLIO_RISK <
        (rm.open_positions.map OpenPos.risk_amount).sum + risk_amount),
      "Total portfolio risk exceeds limit"),
    (decide (config.MAX_DAILY_TRADES ≤ rm.daily_trade_count),
      "Daily trade limit reached") ]

/-- The approval decision as the SPEC states it (section 4.2): the same
checks, but evaluated in the spec's order — halt, consecutive losses,
daily trade count, daily loss, concurrent positions, total committed
exposure, and per-trade risk last.  This definition transcribes the spec's
words and exists only to be compared against
`RiskManager.can_open_position`. -/
def can_open_spec_order (rm : RiskManager) (risk_amount : ℚ) : Bool × String :=
  firstFailing
    [ (rm.trading_halted, "Trading halted: " ++ strOfOpt rm.halt_reason),
      (decide (config.MAX_CONSECUTIVE_LOSSES ≤ rm.consecutive_losses),
        "Too many consecutive losses"),
      (decide (config.MAX_DAILY_TRADES ≤ rm.daily_trade_count),
        "Daily trade limit reached"),
      (decide (rm.daily_pnl < -(rm.current_capital * rm.max_daily_loss)),
        "Daily loss limit reached"),
      (decide (rm.max_concurrent_trades ≤ rm.open_positions.length),
        "Maximum concurrent trades reached"),
      (decide (rm.current_capital * config.MAX_TOTAL_PORTFOLIO_RISK <
          (rm.open_positions.map OpenPos.risk_amount).sum + risk_amount),
        "Total portfolio risk exceeds limit"),
      (decide (rm.current_capital * rm.max_risk_per_trade < risk_amount),
        "Exceeds per-trade risk limit") ]
    (true, "Position allowed")

/-- The drawdown value `can_open_position` assigns when it reaches the
drawdown check. -/
def recomputedDrawdown (rm : RiskManager) : ℚ :=
  (rm.peak_capital - rm.current_capital) / rm.peak_capital

/-!  Concrete fixtures for witnesses and counterexamples. -/

/-- Governor with five consecutive losses on the books. -/
def rmC2 : RiskManager :=
  { RiskManager.init 1000 none with consecutive_losses := 5 }

/-- A halted governor. -/
def rmHalted : RiskManager :=
  (RiskManager.init 1000 none).halt_trading "Daily loss limit reached"

/-- Governor whose daily realized loss already exceeds the daily limit. -/
def rmDL : RiskManager :=
  { RiskManager.init 1000 none with daily_pnl := -100 }

/-- Default-configured backtester. -/
def bt0 : Backtester := Backtester.init none none

/-- Strategy that never signals. -/
def stratNone : Strategy where
  longSignal := fun _ => false
  shortSignal := fun _ => false
  calculate_entry_exit := fun _ _ => none

/-- Strategy that goes long at bar 100 with entry 2, stop 1, target 10. -/
def stratC5 : Strategy where
  longSignal := fun i => i == 100
  shortSignal := fun _ => false
  calculate_entry_exit := fun _ _ =>
    some { entry := 2, stop_loss := 1, take_profit_1 := 10, take_profit_2 := none }

/-- Strategy that goes long at bar 100 with entry = stop = 1 (zero price
risk) and target 10. -/
def stratC7 : Strategy where
  longSignal := fun i => i == 100
  shortSignal := fun _ => false
  calculate_entry_exit := fun _ _ =>
    some { entry := 1, stop_loss := 1, take_profit_1 := 10, take_profit_2 := none }

/-- 100 flat bars (the loop body never runs). -/
def bars100 : List Bar := List.replicate 100 { low := 1, high := 1, close := 1 }

/-- 101 flat bars at price 2 (the loop runs exactly once, at index 100). -/
def bars101 : List Bar := List.replicate 101 { low := 2, high := 2, close := 2 }

/-- 1.45 as a normalised rational (29/20).  Explicit `Rat.mk'` values let
the kernel evaluate comparisons that `Rat.ofScientific` (irreducible)
would block. -/
def q1_45 : ℚ := ⟨29, 20, by decide, by decide⟩

/-- 1.4475 = 579/400 -/
def q1_4475 : ℚ := ⟨579, 400, by decide, by decide⟩

/-- 1.46 = 73/50 -/
def q1_46 : ℚ := ⟨73, 50, by decide, by decide⟩

/-- 1.4470 = 1447/1000 -/
def q1_4470 : ℚ := ⟨1447, 1000, by decide, by decide⟩

/-- 1.4480 = 181/125 -/
def q1_4480 : ℚ := ⟨181, 125, by decide, by decide⟩

/-- 1.4478 = 7239/5000 -/
def q1_4478 : ℚ := ⟨7239, 5000, by decide, by decide⟩

/-- The spec scenario of C3: a long position entered at 1.45 with stop
1.4475 and target 1.46. -/
def posC3 : Position where
  type := Direction.long
  entry_price := q1_45
  entry_time := 0
  entry_index := 0
  stop_loss := q1_4475
  take_profit_1 := q1_46
  take_profit_2 := none
  size := 1
  pClosed := false

/-- The spec scenario of C3: a bar with low 1.4470. -/
def barC3 : Bar := { low := q1_4470, high := q1_4480, close := q1_4478 }

/-- A winning trade (for the profit-factor witness). -/
def tradeWin : Trade where
  entry_time := 0
  exit_time := 1
  type := Direction.long
  entry_price := 1
  exit_price := 2
  pnl := 5
  pnl_pct := 1
  exit_reason := ExitReason.take_profit

/-- A losing trade (for the profit-factor witness). -/
def tradeLoss : Trade where
  entry_time := 0
  exit_time := 1
  type := Direction.long
  entry_price := 2
  exit_price := 1
  pnl := -2
  pnl_pct := -1
  exit_reason := ExitReason.stop_loss

/-- A small governor trace: two closes interleaved with an approval query. -/
def opsC1 : List RMOp :=
  [RMOp.closePos 1 5, RMOp.canOpen 1 "mean_reversion", RMOp.closePos 2 (-3)]

/-- The entry data stratC7 always proposes (zero price risk). -/
def edC7 : EntryData :=
  { entry := 1, stop_loss := 1, take_profit_1 := 10, take_profit_2 := none }

/-- The result of the signal-free 100-bar run: no trades, flat equity. -/
def resNone : BTResult where
  trades := []
  metrics := { total_trades := 0, win_rate := 0, profit_factor := PFValue.num 0,
               avg_win := 0, avg_loss := 0, avg_rr := 0, max_drawdown := 0,
               total_return := 0, final_equity := 1000 }
  equity_curve := [1000]
  final_capital := 1000

/-!  Theorems. -/

/-- A foldl step that preserves a predicate preserves it along the list. -/
theorem foldl_preserves {α σ : Type} (f : σ → α → σ) (P : σ → Prop)
    (h : ∀ s a, P s → P (f s a)) : ∀ (l : List α) (s : σ), P s → P (l.foldl f s)
  | [], _, hs => hs
  | a :: l, s, hs => foldl_preserves f P h l (f s a) (h s a hs)

/-- Claim C4: once the governor is halted, every `can_open_position` call
rejects with the recorded halt reason and leaves the state unchanged (so
any sequence of approval requests leaves it unchanged and meets the same
rejection), and this persists until `resume_trading` clears the halt. -/
theorem halt_idempotence :
    (∀ (rm : RiskManager) (risk : ℚ) (s : String), rm.trading_halted = true →
        rm.can_open_position risk s =
          (rm, false, "Trading halted: " ++ strOfOpt rm.halt_reason)) ∧
    (∀ rm : RiskManager, rm.trading_halted = true →
        ∀ reqs : List (ℚ × String),
          reqs.foldl (fun st p => (st.can_open_position p.1 p.2).1) rm = rm) ∧
    (∀ rm : RiskManager,
        rm.resume_trading.trading_halted = false ∧
        rm.resume_trading.halt_reason = none) := by
  refine ⟨?_, ?_, ?_⟩
  · intro rm risk s h
    simp [RiskManager.can_open_position, h]
  · intro rm h reqs
    induction reqs with
    | nil => rfl
    | cons p l ih =>
        have h1 : (rm.can_open_position p.1 p.2).1 = rm := by
          simp [RiskManager.can_open_position, h]
        simpa [h1] using ih
  · intro rm
    exact ⟨rfl, rfl⟩

/-- Witness for C4 at a concrete halted governor. -/
theorem halt_idempotence_witness :
    rmHalted.can_open_position 5 "trend_following" =
      (rmHalted, false, "Trading halted: " ++ strOfOpt rmHalted.halt_reason) ∧
    [((1:ℚ), "a"), ((2:ℚ), "b")].foldl
        (fun st p => (st.can_open_position p.1 p.2).1) rmHalted = rmHalted :=
  ⟨halt_idempotence.1 rmHalted 5 "trend_following" rfl,
   halt_idempotence.2.1 rmHalted rfl _⟩

set_option maxHeartbeats 1000000 in
/-- Claim C2 (amended): `can_open_position` is first-failure-wins over the
fixed list of checks in the CODE's order: halt, per-trade risk, daily
loss, drawdown, concurrent positions, consecutive losses, total portfolio
risk, daily trade count. -/
theorem can_open_first_failing (rm : RiskManager) (risk_amount : ℚ) (s : String) :
    (rm.can_open_position risk_amount s).2 =
      firstFailing (codeChecks rm risk_amount) (true, "Position allowed") := by
  by_cases h1 : rm.trading_halted
  · simp [RiskManager.can_open_position, codeChecks, firstFailing, h1]
  · by_cases h2 : rm.current_capital * rm.max_risk_per_trade < risk_amount
    · simp [RiskManager.can_open_position, codeChecks, firstFailing, h1, h2]
    · by_cases h3 : rm.daily_pnl < -(rm.current_capital * rm.max_daily_loss)
      · simp [RiskManager.can_open_position, codeChecks, firstFailing, h1, h2, h3]
      · by_cases h4 : rm.max_drawdown ≤
            (rm.peak_capital - rm.current_capital) / rm.peak_capital
        · simp [RiskManager.can_open_position, codeChecks, firstFailing, h1, h2, h3, h4]
        · by_cases h5 : rm.max_concurrent_trades ≤ rm.open_positions.length
          · simp [RiskManager.can_open_position, codeChecks, firstFailing,
              h1, h2, h3, h4, h5]
          · by_cases h6 : config.MAX_CONSECUTIVE_LOSSES ≤ rm.consecutive_losses
            · simp [RiskManager.can_open_position, codeChecks, firstFailing,
                h1, h2, h3, h4, h5, h6]
            · by_cases h7 : rm.current_capital * config.MAX_TOTAL_PORTFOLIO_RISK <
                  (rm.open_positions.map OpenPos.risk_amount).sum + risk_amount
              · simp [RiskManager.can_open_position, codeChecks, firstFailing,
                  h1, h2, h3, h4, h5, h6, h7]
              · by_cases h8 : config.MAX_DAILY_TRADES ≤ rm.daily_trade_count
                · simp [RiskManager.can_open_position, codeChecks, firstFailing,
                    h1, h2, h3, h4, h5, h6, h7, h8]
                · simp [RiskManager.can_open_position, codeChecks, firstFailing,
                    h1, h2, h3, h4, h5, h6, h7, h8]

/-- Claim C2 (counterexample): with five consecutive losses on the books
and a proposed risk above the per-trade limit, the code rejects with
"Exceeds per-trade risk limit" (its second check), while the spec's
ordering (consecutive losses second, per-trade risk last) would reject
with "Too many consecutive losses". -/
theorem can_open_order_counterexample :
    (rmC2.can_open_position 20 "mean_reversion").2 ≠ can_open_spec_order rmC2 20 ∧
    (rmC2.can_open_position 20 "mean_reversion").2 =
      (false, "Exceeds per-trade risk limit") ∧
    can_open_spec_order rmC2 20 = (false, "Too many consecutive losses") := by
  have h1 : (rmC2.can_open_position 20 "mean_reversion").2 =
      (false, "Exceeds per-trade risk limit") := by
    norm_num [RiskManager.can_open_position, rmC2, RiskManager.init, pyOrQ,
      config.MAX_RISK_PER_TRADE]
  have h2 : can_open_spec_order rmC2 20 = (false, "Too many consecutive losses") := by
    norm_num [can_open_spec_order, firstFailing, rmC2, RiskManager.init, pyOrQ,
      config.MAX_CONSECUTIVE_LOSSES]
  refine ⟨?_, h1, h2⟩
  rw [h1, h2]
  decide


/-- Claim C9: with non-zero price risk, `calculate_position_size` returns
the minimum of the risk-based lot count and
(0.10 x capital) / (entry x 100000); hence (for a positive entry price)
the implied notional never exceeds 10 percent of current capital. -/
theorem position_size_notional_cap (rm : RiskManager)
    (entry_price stop_loss_price risk_percentage : ℚ)
    (hne : entry_price ≠ stop_loss_price) (hpos : 0 < entry_price) :
    rm.calculate_position_size entry_price stop_loss_price risk_percentage =
      min (rm.current_capital * risk_percentage /
            (|entry_price - stop_loss_price| / config.EURCAD_PIP_VALUE) / 10)
          (rm.current_capital * 0.10 / (entry_price * 100000)) ∧
    rm.calculate_position_size entry_price stop_loss_price risk_percentage *
        (entry_price * 100000) ≤ rm.current_capital * 0.10 := by
  have hd : |entry_price - stop_loss_price| / config.EURCAD_PIP_VALUE ≠ 0 := by
    rw [div_ne_zero_iff]
    refine ⟨abs_ne_zero.mpr (sub_ne_zero_of_ne hne), ?_⟩
    norm_num [config.EURCAD_PIP_VALUE]
  have hmain : rm.calculate_position_size entry_price stop_loss_price risk_percentage =
      min (rm.current_capital * risk_percentage /
            (|entry_price - stop_loss_price| / config.EURCAD_PIP_VALUE) / 10)
          (rm.current_capital * 0.10 / (entry_price * 100000)) := by
    simp [RiskManager.calculate_position_size, hd]
  refine ⟨hmain, ?_⟩
  rw [hmain]
  have h2 : (0:ℚ) < entry_price * 100000 := by positivity
  calc min (rm.current_capital * risk_percentage /
            (|entry_price - stop_loss_price| / config.EURCAD_PIP_VALUE) / 10)
          (rm.current_capital * 0.10 / (entry_price * 100000)) *
        (entry_price * 100000)
      ≤ rm.current_capital * 0.10 / (entry_price * 100000) * (entry_price * 100000) :=
        mul_le_mul_of_nonneg_right (min_le_right _ _) h2.le
    _ = rm.current_capital * 0.10 := div_mul_cancel₀ _ h2.ne.symm

theorem position_size_notional_cap_witness :
    (RiskManager.init 1000 none).calculate_position_size 2 1 (1/100) =
      min ((RiskManager.init 1000 none).current_capital * (1/100) /
            (|(2:ℚ) - 1| / config.EURCAD_PIP_VALUE) / 10)
          ((RiskManager.init 1000 none).current_capital * 0.10 / (2 * 100000)) ∧
    (RiskManager.init 1000 none).calculate_position_size 2 1 (1/100) * (2 * 100000) ≤
      (RiskManager.init 1000 none).current_capital * 0.10 :=
  position_size_notional_cap (RiskManager.init 1000 none) 2 1 (1/100)
    (by norm_num) (by norm_num)

/-- Claim C7 (amended): with zero price risk both sizing routines return
size 0 and never divide by zero, and a zero-size position contributes
zero P&L; the backtester does NOT skip the trade (see the
counterexample). -/
theorem zero_price_risk_sizing :
    (∀ (rm : RiskManager) (e s r : ℚ), e = s →
        rm.calculate_position_size e s r = 0) ∧
    (∀ (ty : Direction) (i : ℕ) (ed : EntryData) (cap : ℚ),
        ed.entry = ed.stop_loss → (open_position ty i ed cap).size = 0) ∧
    (∀ (bt : Backtester) (pos : Position) (cr : CloseResult),
        pos.size = 0 → bt.calculate_pnl pos cr = 0) := by
  refine ⟨?_, ?_, ?_⟩
  · intro rm e s r h
    simp [RiskManager.calculate_position_size, h]
  · intro ty i ed cap h
    simp [open_position, h]
  · intro bt pos cr h
    simp [Backtester.calculate_pnl, h]

theorem zero_price_risk_sizing_witness :
    (RiskManager.init 1000 none).calculate_position_size 1 1 (1/100) = 0 ∧
    (open_position Direction.long 100 edC7 1000).size = 0 ∧
    bt0.calculate_pnl (open_position Direction.long 100 edC7 1000)
        { price := 1, time := 100, reason := ExitReason.stop_loss } = 0 :=
  ⟨zero_price_risk_sizing.1 (RiskManager.init 1000 none) 1 1 (1/100) rfl,
   zero_price_risk_sizing.2.1 Direction.long 100 edC7 1000 rfl,
   zero_price_risk_sizing.2.2 bt0 _ _
     (zero_price_risk_sizing.2.1 Direction.long 100 edC7 1000 rfl)⟩

/-- Claim C7 (counterexample): the backtester does not skip a zero
price-risk trade: with a strategy whose entry equals its stop, the
simulated run still opens a position (it is in the open set at series
end). -/
theorem zero_risk_trade_not_skipped :
    stratC7.calculate_entry_exit 100 Direction.long = some edC7 ∧
    edC7.entry = edC7.stop_loss ∧
    (bt0.runState stratC7 bars101).positions.length = 1 :=
  ⟨rfl, rfl, by decide⟩


/-- Claim C10: `can_open_position` has frame effects: daily-loss, drawdown
and consecutive-losses rejections halt the governor (recording the halt
reason), every call reaching the drawdown check recomputes
`current_drawdown`, the remaining outcomes change nothing else, and
`close_position` itself never halts. -/
theorem can_open_side_effects :
    (∀ (rm : RiskManager) (r : ℚ) (s : String), rm.trading_halted = false →
        ¬ rm.current_capital * rm.max_risk_per_trade < r →
        rm.daily_pnl < -(rm.current_capital * rm.max_daily_loss) →
        rm.can_open_position r s =
          ({ rm with trading_halted := true,
                     halt_reason := some "Daily loss limit reached" },
           false, "Daily loss limit reached")) ∧
    (∀ (rm : RiskManager) (r : ℚ) (s : String), rm.trading_halted = false →
        ¬ rm.current_capital * rm.max_risk_per_trade < r →
        ¬ rm.daily_pnl < -(rm.current_capital * rm.max_daily_loss) →
        rm.max_drawdown ≤ recomputedDrawdown rm →
        rm.can_open_position r s =
          ({ rm with current_drawdown := recomputedDrawdown rm,
                     trading_halted := true,
                     halt_reason := some "Maximum drawdown reached" },
           false, "Maximum drawdown reached")) ∧
    (∀ (rm : RiskManager) (r : ℚ) (s : String), rm.trading_halted = false →
        ¬ rm.current_capital * rm.max_risk_per_trade < r →
        ¬ rm.daily_pnl < -(rm.current_capital * rm.max_daily_loss) →
        ¬ rm.max_drawdown ≤ recomputedDrawdown rm →
        ¬ rm.max_concurrent_trades ≤ rm.open_positions.length →
        config.MAX_CONSECUTIVE_LOSSES ≤ rm.consecutive_losses →
        rm.can_open_position r s =
          ({ rm with current_drawdown := recomputedDrawdown rm,
                     trading_halted := true,
                     halt_reason := some "5 consecutive losses - cooldown period" },
           false, "Too many consecutive losses")) ∧
    (∀ (rm : RiskManager) (r : ℚ) (s : String), rm.trading_halted = false →
        ¬ rm.current_capital * rm.max_risk_per_trade < r →
        ¬ rm.daily_pnl < -(rm.current_capital * rm.max_daily_loss) →
        (rm.can_open_position r s).1.current_drawdown = recomputedDrawdown rm) ∧
    (∀ (rm : RiskManager) (r : ℚ) (s : String),
        rm.trading_halted = true ∨
          (rm.trading_halted = false ∧ rm.current_capital * rm.max_risk_per_trade < r) →
        (rm.can_open_position r s).1 = rm) ∧
    (∀ (rm : RiskManager) (r : ℚ) (s : String), rm.trading_halted = false →
        ¬ rm.current_capital * rm.max_risk_per_trade < r →
        ¬ rm.daily_pnl < -(rm.current_capital * rm.max_daily_loss) →
        ¬ rm.max_drawdown ≤ recomputedDrawdown rm →
        (rm.max_concurrent_trades ≤ rm.open_positions.length ∨
          ¬ config.MAX_CONSECUTIVE_LOSSES ≤ rm.consecutive_losses) →
        (rm.can_open_position r s).1 =
          { rm with current_drawdown := recomputedDrawdown rm }) ∧
    (∀ (rm : RiskManager) (id : ℕ) (pnl : ℚ),
        (rm.close_position id pnl).trading_halted = rm.trading_halted ∧
        (rm.close_position id pnl).halt_reason = rm.halt_reason) := by
  refine ⟨?_, ?_, ?_, ?_, ?_, ?_, ?_⟩
  · intro rm r s h1 h2 h3
    simp [RiskManager.can_open_position, RiskManager.halt_trading, h1, h2, h3]
  · intro rm r s h1 h2 h3 h4
    simp [RiskManager.can_open_position, RiskManager.halt_trading,
      recomputedDrawdown, h1, h2, h3] at h4 ⊢
    simp [h4]
  · intro rm r s h1 h2 h3 h4 h5 h6
    simp only [recomputedDrawdown] at h4
    simp [RiskManager.can_open_position, RiskManager.halt_trading,
      recomputedDrawdown, h1, h2, h3, h4, h5, h6]
  · intro rm r s h1 h2 h3
    simp [RiskManager.can_open_position, RiskManager.halt_trading,
      recomputedDrawdown, h1, h2, h3]
    split_ifs <;> rfl
  · intro rm r s h
    rcases h with h | ⟨h1, h2⟩
    · simp [RiskManager.can_open_position, h]
    · simp [RiskManager.can_open_position, h1, h2]
  · intro rm r s h1 h2 h3 h4 h5
    simp only [recomputedDrawdown] at h4
    rcases h5 with h5 | h5
    · simp [RiskManager.can_open_position, RiskManager.halt_trading,
        recomputedDrawdown, h1, h2, h3, h4, h5]
    · simp [RiskManager.can_open_position, RiskManager.halt_trading,
        recomputedDrawdown, h1, h2, h3, h4, h5]
      split_ifs <;> rfl
  · intro rm id pnl
    by_cases hp : rm.peak_capital < rm.current_capital + pnl
    · by_cases hn : pnl < 0
      · simp [RiskManager.close_position, hp, hn]
      · simp [RiskManager.close_position, hp, hn]
    · by_cases hn : pnl < 0
      · simp [RiskManager.close_position, hp, hn]
      · simp [RiskManager.close_position, hp, hn]

theorem can_open_side_effects_witness :
    rmDL.can_open_position 1 "grid_trading" =
      ({ rmDL with trading_halted := true,
                   halt_reason := some "Daily loss limit reached" },
       false, "Daily loss limit reached") ∧
    ((rmDL.close_position 1 (-5)).trading_halted = rmDL.trading_halted ∧
      (rmDL.close_position 1 (-5)).halt_reason = rmDL.halt_reason) :=
  ⟨can_open_side_effects.1 rmDL 1 "grid_trading" rfl
      (by norm_num [rmDL, RiskManager.init, pyOrQ, config.MAX_RISK_PER_TRADE])
      (by norm_num [rmDL, RiskManager.init, pyOrQ, config.MAX_DAILY_LOSS]),
   can_open_side_effects.2.2.2.2.2.2 rmDL 1 (-5)⟩


/-- Claim C3: `_check_exit` tests conditions in fixed priority order —
stop-loss (bar low for a long, bar high for a short), then take-profit
(bar high for a long, bar low for a short), then the time-based exit —
and the first match wins; the exit price is the triggering level, except
for time exits which use the bar close. -/
theorem exit_priority (position : Position) (bar : Bar) (index : ℕ) :
    (position.type = Direction.long → bar.low ≤ position.stop_loss →
        check_exit position bar index =
          some { price := position.stop_loss, time := index,
                 reason := ExitReason.stop_loss }) ∧
    (position.type = Direction.long → ¬ bar.low ≤ position.stop_loss →
        position.take_profit_1 ≤ bar.high →
        check_exit position bar index =
          some { price := position.take_profit_1, time := index,
                 reason := ExitReason.take_profit }) ∧
    (position.type = Direction.short → position.stop_loss ≤ bar.high →
        check_exit position bar index =
          some { price := position.stop_loss, time := index,
                 reason := ExitReason.stop_loss }) ∧
    (position.type = Direction.short → ¬ position.stop_loss ≤ bar.high →
        bar.low ≤ position.take_profit_1 →
        check_exit position bar index =
          some { price := position.take_profit_1, time := index,
                 reason := ExitReason.take_profit }) ∧
    ((position.type = Direction.long ∧ ¬ bar.low ≤ position.stop_loss ∧
        ¬ position.take_profit_1 ≤ bar.high) ∨
      (position.type = Direction.short ∧ ¬ position.stop_loss ≤ bar.high ∧
        ¬ bar.low ≤ position.take_profit_1) →
      (48 < index - position.entry_index →
          check_exit position bar index =
            some { price := bar.close, time := index,
                   reason := ExitReason.time_exit }) ∧
      (¬ 48 < index - position.entry_index →
          check_exit position bar index = none)) := by
  refine ⟨?_, ?_, ?_, ?_, ?_⟩
  · intro ht h1
    simp [check_exit, ht, h1]
  · intro ht h1 h2
    simp [check_exit, ht, h1, h2]
  · intro ht h1
    simp [check_exit, ht, h1]
  · intro ht h1 h2
    simp [check_exit, ht, h1, h2]
  · intro h
    rcases h with ⟨ht, h1, h2⟩ | ⟨ht, h1, h2⟩ <;>
      exact ⟨fun h3 => by simp [check_exit, ht, h1, h2, h3],
             fun h3 => by simp [check_exit, ht, h1, h2, h3]⟩

/-- Witness for C3 at the spec's scenario: a long position with stop
1.4475 (= 579/400) on a bar with low 1.4470 (= 1447/1000) exits with
reason stop_loss at exactly the stop price, not the bar close. -/
theorem exit_priority_witness :
    check_exit posC3 barC3 5 =
      some { price := posC3.stop_loss, time := 5, reason := ExitReason.stop_loss } ∧
    posC3.stop_loss = q1_4475 ∧ posC3.stop_loss ≠ barC3.close :=
  ⟨(exit_priority posC3 barC3 5).1 rfl (by decide), rfl, by decide⟩


/-- Claim C8: the profit factor of `_calculate_metrics` never divides by
zero: it is gross winning P&L over |gross losing P&L| when gross losses
are positive, the infinite sentinel when losses are zero and wins are
positive, and 0 when there are neither wins nor losses. -/
theorem profit_factor_cases (trades_list : List Trade) (equity_curve : List ℚ) :
    (0 < |((trades_list.filter (fun t => t.pnl < 0)).map Trade.pnl).sum| →
        (calculate_metrics trades_list equity_curve).profit_factor =
          PFValue.num
            (((trades_list.filter (fun t => 0 < t.pnl)).map Trade.pnl).sum /
              |((trades_list.filter (fun t => t.pnl < 0)).map Trade.pnl).sum|)) ∧
    (|((trades_list.filter (fun t => t.pnl < 0)).map Trade.pnl).sum| = 0 →
      0 < ((trades_list.filter (fun t => 0 < t.pnl)).map Trade.pnl).sum →
        (calculate_metrics trades_list equity_curve).profit_factor = PFValue.inf) ∧
    (|((trades_list.filter (fun t => t.pnl < 0)).map Trade.pnl).sum| = 0 →
      ((trades_list.filter (fun t => 0 < t.pnl)).map Trade.pnl).sum = 0 →
        (calculate_metrics trades_list equity_curve).profit_factor = PFValue.num 0) := by
  by_cases hts : trades_list = []
  · subst hts
    refine ⟨?_, ?_, ?_⟩ <;> simp [calculate_metrics]
  · have hne : trades_list.isEmpty = false := by
      simpa [List.isEmpty_iff] using hts
    have hgw : (if 0 < (trades_list.filter (fun t => 0 < t.pnl)).length then
          ((trades_list.filter (fun t => 0 < t.pnl)).map Trade.pnl).sum else 0) =
        ((trades_list.filter (fun t => 0 < t.pnl)).map Trade.pnl).sum := by
      by_cases h : 0 < (trades_list.filter (fun t => 0 < t.pnl)).length
      · simp [h]
      · have h0 : trades_list.filter (fun t => 0 < t.pnl) = [] :=
          List.length_eq_zero.mp (by omega)
        simp [h0]
    have hgl : (if 0 < (trades_list.filter (fun t => t.pnl < 0)).length then
          |((trades_list.filter (fun t => t.pnl < 0)).map Trade.pnl).sum| else 0) =
        |((trades_list.filter (fun t => t.pnl < 0)).map Trade.pnl).sum| := by
      by_cases h : 0 < (trades_list.filter (fun t => t.pnl < 0)).length
      · simp [h]
      · have h0 : trades_list.filter (fun t => t.pnl < 0) = [] :=
          List.length_eq_zero.mp (by omega)
        simp [h0]
    refine ⟨?_, ?_, ?_⟩
    · intro h1
      simp only [calculate_metrics, hne, Bool.false_eq_true, if_false, hgw, hgl, h1,
        if_true]
    · intro h1 h2
      simp only [calculate_metrics, hne, Bool.false_eq_true, if_false, hgw, hgl, h1, h2]
      simp
    · intro h1 h2
      simp only [calculate_metrics, hne, Bool.false_eq_true, if_false, hgw, hgl, h1, h2]
      simp

/-- Witness for C8: one winning trade and no losers gives the infinite
sentinel; one losing trade gives the finite quotient. -/
theorem profit_factor_cases_witness :
    (calculate_metrics [tradeWin] []).profit_factor = PFValue.inf ∧
    (calculate_metrics [tradeLoss] []).profit_factor =
      PFValue.num
        ((([tradeLoss].filter (fun t => 0 < t.pnl)).map Trade.pnl).sum /
          |(([tradeLoss].filter (fun t => t.pnl < 0)).map Trade.pnl).sum|) :=
  ⟨(profit_factor_cases [tradeWin] []).2.1 (by norm_num [tradeWin])
      (by norm_num [tradeWin]),
   (profit_factor_cases [tradeLoss] []).1 (by norm_num [tradeLoss])⟩


/-- `can_open_position` never changes the capital. -/
theorem can_open_capital (rm : RiskManager) (r : ℚ) (s : String) :
    (rm.can_open_position r s).1.current_capital = rm.current_capital := by
  simp only [RiskManager.can_open_position, RiskManager.halt_trading]
  split_ifs <;> rfl

/-- `close_position` adds exactly the passed pnl to capital. -/
theorem close_position_capital (rm : RiskManager) (id : ℕ) (pnl : ℚ) :
    (rm.close_position id pnl).current_capital = rm.current_capital + pnl := by
  simp only [RiskManager.close_position]
  split_ifs <;> rfl

/-- Along any governor trace, capital moves only by closed-trade pnl. -/
theorem runOps_capital (ops : List RMOp) : ∀ rm : RiskManager,
    (rm.runOps ops).current_capital = rm.current_capital + closedPnlSum ops := by
  induction ops with
  | nil => intro rm; simp [RiskManager.runOps, closedPnlSum]
  | cons op rest ih =>
      intro rm
      have hstep : (rm.applyOp op).current_capital =
          rm.current_capital + (match op with
            | RMOp.closePos _ pnl => pnl
            | _ => 0) := by
        cases op with
        | canOpen r s => simpa using can_open_capital rm r s
        | addPos p => simp [RiskManager.applyOp, RiskManager.add_position]
        | closePos id pnl => simpa using close_position_capital rm id pnl
        | haltOp r => simp [RiskManager.applyOp, RiskManager.halt_trading]
        | resumeOp => simp [RiskManager.applyOp, RiskManager.resume_trading]
        | resetDaily => simp [RiskManager.applyOp, RiskManager.reset_daily_metrics]
      have hrun : (rm.runOps (op :: rest)).current_capital =
          ((rm.applyOp op).runOps rest).current_capital := rfl
      rw [hrun, ih (rm.applyOp op), hstep]
      cases op <;> simp [closedPnlSum] <;> ring

/-- The entry phase changes neither capital nor the trade log. -/
theorem btEntry_frame (strat : Strategy) (st : BTState) (i : ℕ) :
    (btEntry strat st i).capital = st.capital ∧
    (btEntry strat st i).trades = st.trades := by
  unfold btEntry
  split_ifs with h1 h2
  · cases strat.calculate_entry_exit i Direction.long <;> exact ⟨rfl, rfl⟩
  · cases strat.calculate_entry_exit i Direction.short <;> exact ⟨rfl, rfl⟩
  · exact ⟨rfl, rfl⟩

/-- Along the exit fold, capital minus booked pnl is invariant. -/
theorem btExitStep_invariant (bt : Backtester) (bar : Bar) (i : ℕ) :
    ∀ (ps : List Position) (cap : ℚ) (trs : List Trade),
      (ps.foldl (btExitStep bt bar i) (cap, trs)).1 -
        (((ps.foldl (btExitStep bt bar i) (cap, trs)).2).map Trade.pnl).sum =
      cap - (trs.map Trade.pnl).sum := by
  intro ps
  induction ps with
  | nil => intro cap trs; simp
  | cons p rest ih =>
      intro cap trs
      simp only [List.foldl_cons]
      cases hc : check_exit p bar i with
      | none =>
          simp only [btExitStep, hc]
          exact ih cap trs
      | some cr =>
          simp only [btExitStep, hc]
          rw [ih]
          simp [List.map_append]

/-- One simulated bar preserves capital minus booked pnl. -/
theorem btBar_invariant (bt : Backtester) (strat : Strategy) (st : BTState) (i : ℕ)
    (bar : Bar) :
    (btBar bt strat st i bar).capital -
      (((btBar bt strat st i bar).trades).map Trade.pnl).sum =
    st.capital - (st.trades.map Trade.pnl).sum := by
  unfold btBar
  dsimp only
  rw [(btEntry_frame strat st i).1, (btEntry_frame strat st i).2]
  exact btExitStep_invariant bt bar i (btEntry strat st i).positions
    st.capital st.trades

/-- Over the whole run, the final capital differs from the initial capital
by exactly the booked pnl. -/
theorem runState_capital (bt : Backtester) (strat : Strategy) (bars : List Bar) :
    (bt.runState strat bars).capital -
      (((bt.runState strat bars).trades).map Trade.pnl).sum = bt.initial_capital := by
  unfold Backtester.runState
  refine foldl_preserves _
    (fun st : BTState => st.capital - (st.trades.map Trade.pnl).sum = bt.initial_capital)
    ?_ _ _ ?_
  · intro st p h
    rw [← h]
    exact btBar_invariant bt strat st p.1 p.2
  · simp

/-- Claim C1: capital conservation.  In `run_backtest`, the returned
final_capital equals the initial capital plus the sum of the net P&L of
the returned trades; in the Risk Governor, after any trace of operations
from a fresh state, current_capital equals the initial capital plus the
sum of all pnl values passed to `close_position`. -/
theorem capital_conservation :
    (∀ (bt : Backtester) (strat : Strategy) (bars : List Bar) (res : BTResult),
        bt.run_backtest strat bars = some res →
        res.final_capital = bt.initial_capital + (res.trades.map Trade.pnl).sum) ∧
    (∀ (c : ℚ) (m : Option ℚ) (ops : List RMOp),
        ((RiskManager.init c m).runOps ops).current_capital = c + closedPnlSum ops) := by
  constructor
  · intro bt strat bars res h
    unfold Backtester.run_backtest at h
    by_cases hlen : bars.length < 100
    · rw [if_pos hlen] at h
      exact absurd h (by simp)
    · rw [if_neg hlen] at h
      have h2 := Option.some.inj h
      rw [← h2]
      exact eq_add_of_sub_eq (runState_capital bt strat bars)
  · intro c m ops
    have h := runOps_capital ops (RiskManager.init c m)
    simpa [RiskManager.init] using h

/-- Witness for C1: the signal-free 100-bar run and a concrete governor
trace with closes of +5 and -3. -/
theorem capital_conservation_witness :
    resNone.final_capital = bt0.initial_capital + (resNone.trades.map Trade.pnl).sum ∧
    ((RiskManager.init 1000 none).runOps opsC1).current_capital =
      1000 + closedPnlSum opsC1 :=
  ⟨capital_conservation.1 bt0 stratNone bars100 resNone rfl,
   capital_conservation.2 1000 none opsC1⟩


/-- `_check_exit` only ever reports stop_loss, take_profit or time_exit. -/
theorem check_exit_not_end_of_data (position : Position) (bar : Bar) (index : ℕ)
    (cr : CloseResult) (h : check_exit position bar index = some cr) :
    cr.reason ≠ ExitReason.end_of_data := by
  unfold check_exit at h
  cases htype : position.type <;> rw [htype] at h <;> dsimp only at h <;>
    split_ifs at h <;> simp_all <;> simp [← h]

/-- The exit fold only appends trades whose reason comes from
`check_exit`. -/
theorem btExit_trades_reasons (bt : Backtester) (bar : Bar) (i : ℕ) :
    ∀ (ps : List Position) (cap : ℚ) (trs : List Trade),
      (∀ t ∈ trs, t.exit_reason ≠ ExitReason.end_of_data) →
      ∀ t ∈ (ps.foldl (btExitStep bt bar i) (cap, trs)).2,
        t.exit_reason ≠ ExitReason.end_of_data := by
  intro ps
  induction ps with
  | nil => intro cap trs h; simpa using h
  | cons p rest ih =>
      intro cap trs h
      simp only [List.foldl_cons]
      cases hc : check_exit p bar i with
      | none =>
          simp only [btExitStep, hc]
          exact ih cap trs h
      | some cr =>
          simp only [btExitStep, hc]
          apply ih
          intro t ht
          rcases List.mem_append.mp ht with h1 | h1
          · exact h t h1
          · have h2 : t.exit_reason = cr.reason := by
              simp only [List.mem_singleton] at h1
              rw [h1]
            rw [h2]
            exact check_exit_not_end_of_data p bar i cr hc
  
/-- One simulated bar preserves "no end_of_data trade booked". -/
theorem btBar_trades_reasons (bt : Backtester) (strat : Strategy) (st : BTState)
    (i : ℕ) (bar : Bar)
    (h : ∀ t ∈ st.trades, t.exit_reason ≠ ExitReason.end_of_data) :
    ∀ t ∈ (btBar bt strat st i bar).trades,
      t.exit_reason ≠ ExitReason.end_of_data := by
  unfold btBar
  dsimp only
  rw [(btEntry_frame strat st i).2]
  exact btExit_trades_reasons bt bar i (btEntry strat st i).positions
    (btEntry strat st i).capital st.trades h

/-- Claim C5 (amended): `run_backtest` never produces an `end_of_data`
trade — a position still open at series end is simply dropped, not
force-closed — and final_capital consists of the initial capital plus the
P&L of the recorded (closed) trades only. -/
theorem no_end_of_data :
    ∀ (bt : Backtester) (strat : Strategy) (bars : List Bar) (res : BTResult),
      bt.run_backtest strat bars = some res →
      (∀ t ∈ res.trades, t.exit_reason ≠ ExitReason.end_of_data) ∧
      res.final_capital = bt.initial_capital + (res.trades.map Trade.pnl).sum := by
  intro bt strat bars res h
  unfold Backtester.run_backtest at h
  by_cases hlen : bars.length < 100
  · rw [if_pos hlen] at h
    exact absurd h (by simp)
  · rw [if_neg hlen] at h
    have h2 := Option.some.inj h
    rw [← h2]
    constructor
    · have hrun : ∀ t ∈ (bt.runState strat bars).trades,
          t.exit_reason ≠ ExitReason.end_of_data := by
        unfold Backtester.runState
        refine foldl_preserves _
          (fun st : BTState => ∀ t ∈ st.trades,
            t.exit_reason ≠ ExitReason.end_of_data) ?_ _ _ ?_
        · intro st p hp
          exact btBar_trades_reasons bt strat st p.1 p.2 hp
        · intro t ht
          simp at ht
      exact hrun
    · exact eq_add_of_sub_eq (runState_capital bt strat bars)

/-- Witness for C5 (amended) on the signal-free run. -/
theorem no_end_of_data_witness :
    resNone.trades = [] ∧
    resNone.final_capital = bt0.initial_capital + (resNone.trades.map Trade.pnl).sum :=
  ⟨rfl, (no_end_of_data bt0 stratNone bars100 resNone rfl).2⟩

/-- Claim C5 (counterexample): a run in which a position is still open at
series end (stratC5 opens at bar 100 and nothing triggers an exit):
contrary to the claim, the trade list is empty — no trade with exit
reason end_of_data (or any other) appears — and final_capital is just the
initial capital. -/
theorem end_of_data_counterexample :
    (bt0.runState stratC5 bars101).positions.length = 1 ∧
    (bt0.run_backtest stratC5 bars101).map BTResult.trades = some [] ∧
    (bt0.run_backtest stratC5 bars101).map BTResult.final_capital =
      some bt0.initial_capital := by
  refine ⟨by decide, by decide, by decide⟩


/-- Every generated window starts at least a training period after the
loop's current date, spans exactly the test period, and ends within the
series. -/
theorem wfLoop_bounds (train_days test_days end_date : ℕ) :
    ∀ (fuel current : ℕ) (w : WFWindow),
      w ∈ wfLoop train_days test_days end_date fuel current →
      current + train_days ≤ w.test_start ∧
      w.test_end = w.test_start + test_days ∧ w.test_end ≤ end_date := by
  intro fuel
  induction fuel with
  | zero => intro current w hw; simp [wfLoop] at hw
  | succ n ih =>
      intro current w hw
      simp only [wfLoop] at hw
      split_ifs at hw with h1 h2
      · simp at hw
      · rcases List.mem_cons.mp hw with h | h
        · rw [h]
          refine ⟨le_refl _, rfl, ?_⟩
          dsimp only
          omega
        · have h3 := ih _ w h
          exact ⟨by omega, h3.2.1, h3.2.2⟩
      · simp at hw

/-- The first generated window starts exactly one training period after
the current date. -/
theorem wfLoop_head (train_days test_days end_date fuel current : ℕ)
    (w : WFWindow) (rest : List WFWindow)
    (h : wfLoop train_days test_days end_date fuel current = w :: rest) :
    w.test_start = current + train_days := by
  cases fuel with
  | zero => simp [wfLoop] at h
  | succ n =>
      simp only [wfLoop] at h
      split_ifs at h
      injection h with hh ht
      rw [← hh]

/-- Consecutive windows are separated by exactly the training period. -/
theorem wfLoop_chain (train_days test_days end_date : ℕ) :
    ∀ (fuel current : ℕ),
      (wfLoop train_days test_days end_date fuel current).Chain'
        (fun a b => b.test_start = a.test_end + train_days) := by
  intro fuel
  induction fuel with
  | zero => intro current; simp [wfLoop]
  | succ n ih =>
      intro current
      simp only [wfLoop]
      split_ifs with h1 h2
      · exact List.chain'_nil
      · refine List.chain'_cons'.mpr ⟨?_, ih _⟩
        intro y hy
        cases hl : wfLoop train_days test_days end_date n
            (current + train_days + test_days) with
        | nil => rw [hl] at hy; simp at hy
        | cons w rest =>
            rw [hl] at hy
            simp only [List.head?_cons, Option.mem_some_iff] at hy
            rw [← hy]
            exact wfLoop_head train_days test_days end_date n _ w rest hl
      · exact List.chain'_nil

/-- Generated windows are pairwise non-overlapping. -/
theorem wfLoop_pairwise (train_days test_days end_date : ℕ) :
    ∀ (fuel current : ℕ),
      (wfLoop train_days test_days end_date fuel current).Pairwise
        (fun a b => a.test_end ≤ b.test_start) := by
  intro fuel
  induction fuel with
  | zero => intro current; simp [wfLoop]
  | succ n ih =>
      intro current
      simp only [wfLoop]
      split_ifs with h1 h2
      · exact List.Pairwise.nil
      · refine List.pairwise_cons.mpr ⟨?_, ih _⟩
        intro w hw
        have hb := wfLoop_bounds train_days test_days end_date n
          (current + train_days + test_days) w hw
        dsimp only
        omega
      · exact List.Pairwise.nil

/-- Claim C6 (amended): the generated test windows are pairwise
non-overlapping, each spans exactly the test period and ends within the
series, but consecutive test windows are separated by exactly the
training period (the next test period begins one training period AFTER
the previous one ended, not where it ended), and every window starts at
least a training period after the series start. -/
theorem walk_forward_windows_structure (trainM testM s e : ℕ) :
    ((walk_forward_windows trainM testM s e).Pairwise
        (fun a b => a.test_end ≤ b.test_start)) ∧
    ((walk_forward_windows trainM testM s e).Chain'
        (fun a b => b.test_start = a.test_end + trainM * 30)) ∧
    (∀ w ∈ walk_forward_windows trainM testM s e,
        w.test_end = w.test_start + testM * 30 ∧ w.test_end ≤ e ∧
        s + trainM * 30 ≤ w.test_start) := by
  refine ⟨wfLoop_pairwise _ _ _ _ _, wfLoop_chain _ _ _ _ _, ?_⟩
  intro w hw
  have h := wfLoop_bounds (trainM * 30) (testM * 30) e (e + 1) s w hw
  exact ⟨h.2.1, h.2.2, h.1⟩

/-- Witness for C6 (amended) on the 3-month train / 1-month test split of
a 400-day series. -/
theorem walk_forward_windows_structure_witness :
    ({ test_start := 90, test_end := 120 } : WFWindow).test_end =
      ({ test_start := 90, test_end := 120 } : WFWindow).test_start + 1 * 30 ∧
    ({ test_start := 90, test_end := 120 } : WFWindow).test_end ≤ 400 ∧
    0 + 3 * 30 ≤ ({ test_start := 90, test_end := 120 } : WFWindow).test_start :=
  (walk_forward_windows_structure 3 1 0 400).2.2
    { test_start := 90, test_end := 120 } (by decide)

/-- Claim C6 (counterexample): with 3 train months and 1 test month over
a 400-day range the generated windows are (90,120), (210,240), (330,360):
the second test period begins at 210, not at 120 where the first ended,
so the windows do NOT jointly cover the input range up to a final
remainder — each consecutive pair leaves a 90-day training gap. -/
theorem walk_forward_gap_counterexample :
    walk_forward_windows 3 1 0 400 =
      [{ test_start := 90, test_end := 120 }, { test_start := 210, test_end := 240 },
       { test_start := 330, test_end := 360 }] ∧
    (210 ≠ 120) := by
  exact ⟨by decide, by decide⟩

end ForexBot
